import Mathlib

/-!
Shallow embedding of the geospatial accessibility core of the
Health-Facility-Accessibility-Service-Gaps-Analysis repository, together with
proofs about its specified behaviour.

Conventions of the embedding:
* Floating-point coordinates and attribute values are embedded as rationals.
* A pandas/geopandas GeoDataFrame is an explicit CRS (an optional EPSG code)
  plus an ordered list of features, each an optional geometry with a list of
  named scalar attributes; a missing attribute value (NaN / None) is `none`.
* Library geometry predicates (shapely / geopandas / rasterstats) that the
  code consumes but does not implement are modelled by computable functions:
  point-in-polygon tests are modelled on the bounding box of the polygon's
  vertex list, which is exact for the rectangular fixtures used here.
* The Euclidean distance called by the code is embedded through its square
  (`distSq`), which is a rational; minimisation and argmin over distances
  agree with minimisation over squared distances because the square root is
  monotone, and a distance value itself is recovered as `Real.sqrt` of the
  stored square.
* Fallible operations return `Except` / `Option`; a Python function with no
  raise statement and no failing library call is embedded as total.
-/

namespace HealthGap

/-- A planar point with rational coordinates. -/
structure Pt where
  x : ℚ
  y : ℚ
deriving DecidableEq, Repr

/-- A vector geometry: a point, a polygon given by its vertex list, or an
explicitly empty geometry (such as an empty shapely Point). -/
inductive Geometry where
  | point (p : Pt)
  | polygon (vertices : List Pt)
  | emptyGeom
deriving DecidableEq, Repr

/-- Shapely emptiness test on a concrete geometry. -/
def Geometry.is_empty : Geometry → Bool
  | .point _ => false
  | .polygon vs => vs.isEmpty
  | .emptyGeom => true

/-- The vertex sample of a geometry, used to compute its bounds. -/
def Geometry.boundPts : Geometry → List Pt
  | .point p => [p]
  | .polygon vs => vs
  | .emptyGeom => []

/-- One record of a GeoDataFrame: an optional geometry (a null geometry is
`none`) plus named scalar attributes; an attribute value of `none` embeds
NaN / None. -/
structure Feature where
  geometry : Option Geometry
  attrs : List (String × Option ℚ)
deriving DecidableEq, Repr

/-- A GeoDataFrame: one optional CRS (EPSG code) shared by the whole layer,
plus an ordered list of features. -/
structure GeoDataFrame where
  crs : Option ℤ
  features : List Feature
deriving DecidableEq, Repr

/-- Minimum of a rational list, 0 on the empty list (only used on lists that
are known to be nonempty). -/
def qListMin (l : List ℚ) : ℚ := (l.min?).getD 0

/-- Maximum of a rational list, 0 on the empty list. -/
def qListMax (l : List ℚ) : ℚ := (l.max?).getD 0

/-- All vertex points of the geometries of a layer, the sample over which
geopandas total_bounds is computed. -/
def allBoundPts (gdf : GeoDataFrame) : List Pt :=
  gdf.features.flatMap fun f => (f.geometry.map Geometry.boundPts).getD []

/-- Embedding of GeoDataFrame.total_bounds: (minx, miny, maxx, maxy) over the
layer's geometries. -/
def total_bounds (gdf : GeoDataFrame) : ℚ × ℚ × ℚ × ℚ :=
  let pts := allBoundPts gdf
  (qListMin (pts.map Pt.x), qListMin (pts.map Pt.y),
   qListMax (pts.map Pt.x), qListMax (pts.map Pt.y))

/-- Embedding of numpy.linspace a b n: n evenly spaced samples from a to b,
inclusive of both ends; for n = 1 numpy returns the single sample [a]. -/
def linspace (a b : ℚ) (n : ℕ) : List ℚ :=
  if n = 0 then []
  else if n = 1 then [a]
  else (List.range n).map fun (i : ℕ) => a + (b - a) * (i : ℚ) / ((n : ℚ) - 1)

/-- The point comprehension of AccessibilityAnalyzer.create_population_grid:
Point(x, y) for x in linspace(minx, maxx, n) for y in linspace(miny, maxy, n). -/
def gridPoints (minx miny maxx maxy : ℚ) (n : ℕ) : List Pt :=
  (linspace minx maxx n).flatMap fun gx =>
    (linspace miny maxy n).map fun gy => Pt.mk gx gy

/-- Embedding of AccessibilityAnalyzer.create_population_grid: computes the
boundary layer's total bounds and builds a grid_size x grid_size point layer
in the boundary's CRS. -/
def create_population_grid (boundaries : GeoDataFrame) (grid_size : ℕ) :
    GeoDataFrame :=
  let b := total_bounds boundaries
  { crs := boundaries.crs,
    features := (gridPoints b.1 b.2.1 b.2.2.1 b.2.2.2 grid_size).map fun p =>
      { geometry := some (Geometry.point p), attrs := [] } }

/-- The square of the planar Euclidean distance between two points. The code
computes facilities.distance(geom), the Euclidean distance itself; it is
embedded by its square so that it stays rational. -/
def distSq (p q : Pt) : ℚ := (p.x - q.x) ^ 2 + (p.y - q.y) ^ 2

/-- Helper for pandas Series.argmin: scans the remaining values keeping the
position of the first occurrence of the minimum seen so far. -/
def seriesArgminAux : List ℚ → ℕ → ℕ → ℚ → ℕ
  | [], _, bi, _ => bi
  | v :: vs, i, bi, bv =>
    if v < bv then seriesArgminAux vs (i + 1) i v
    else seriesArgminAux vs (i + 1) bi bv

/-- Embedding of pandas Series.argmin: position of the first occurrence of the
minimum; pandas raises on an empty series, embedded as `none`. -/
def seriesArgmin : List ℚ → Option ℕ
  | [] => none
  | v :: vs => some (seriesArgminAux vs 1 0 v)

/-- One row of the accessibility grid after calculate_distances. The column
distance_to_facility_m of the code is Real.sqrt distSq_m, and
distance_to_facility_km is that value divided by 1000. -/
structure DistRec where
  point : Pt
  nearest_facility_idx : ℕ
  distSq_m : ℚ
deriving DecidableEq, Repr

/-- The per-point loop of AccessibilityAnalyzer.calculate_distances: for each
population point, argmin and min of the distances to every facility (embedded
on squared distances, which have the same argmin and min witness). An empty
facility list makes the first argmin raise, embedded as `none`. -/
def calcDistRecs (facilities : List Pt) : List Pt → Option (List DistRec)
  | [] => some []
  | g :: gs => do
    let dists := facilities.map fun f => distSq f g
    let idx ← seriesArgmin dists
    let m ← dists.min?
    let rest ← calcDistRecs facilities gs
    pure ({ point := g, nearest_facility_idx := idx, distSq_m := m } :: rest)

/-- Embedding of AccessibilityAnalyzer.calculate_distances. -/
def calculate_distances (facilities population : List Pt) :
    Option (List DistRec) :=
  calcDistRecs facilities population

/-- Stable insertion into an ascending list, the building block of the
embedding of Python sorted. -/
def insertSorted (a : ℚ) : List ℚ → List ℚ
  | [] => [a]
  | b :: bs => if a ≤ b then a :: b :: bs else b :: insertSorted a bs

/-- Embedding of Python sorted on rationals (ascending). -/
def sortAsc (l : List ℚ) : List ℚ := l.foldr insertSorted []

/-- The within_<t>km columns produced for one row by
AccessibilityAnalyzer.classify_accessibility: thresholds are traversed in
ascending order and each column holds distance_km <= threshold. -/
def withinFlags (d : ℚ) (thresholds_km : List ℚ) : List (ℚ × Bool) :=
  (sortAsc thresholds_km).map fun t => (t, decide (d ≤ t))

/-- One row of the classified accessibility grid: the
distance_to_facility_km column value plus the within_<t>km boolean columns
keyed by threshold. -/
structure AccessRec where
  dist_km : ℚ
  flags : List (ℚ × Bool)
deriving DecidableEq, Repr

/-- Embedding of AccessibilityAnalyzer.classify_accessibility, applied to the
distance_to_facility_km column of the population grid. -/
def classify_accessibility (dist_km_col : List ℚ) (thresholds_km : List ℚ) :
    List AccessRec :=
  dist_km_col.map fun d => { dist_km := d, flags := withinFlags d thresholds_km }

/-- The error taxonomy named by the design spec. The analysed source defines
none of these exception classes; the type exists so that the spec's claims
about them can be stated over Except-valued embeddings. -/
inductive GeoErr where
  | CRSMismatchError
  | EmptyDatasetError
deriving DecidableEq, Repr

/-- Embedding of pandas Series.mean: NaN (`none`) on an empty series. -/
def seriesMean (l : List ℚ) : Option ℚ :=
  if l.isEmpty then none else some (l.sum / (l.length : ℚ))

/-- Embedding of pandas Series.median: middle of the sorted values, averaging
the two middles on even length; NaN (`none`) on an empty series. -/
def seriesMedian (l : List ℚ) : Option ℚ :=
  let s := sortAsc l
  if s.length = 0 then none
  else if s.length % 2 = 1 then s[s.length / 2]?
  else do
    let a ← s[s.length / 2 - 1]?
    let b ← s[s.length / 2]?
    pure ((a + b) / 2)

/-- Embedding of pandas Series.std through its square: the sample variance
with denominator n - 1; the std_km of the code is Real.sqrt of this value.
NaN (`none`) when fewer than two values exist. -/
def seriesVarKm (l : List ℚ) : Option ℚ :=
  if l.length < 2 then none
  else
    let mu := l.sum / (l.length : ℚ)
    some ((l.map fun v => (v - mu) ^ 2).sum / ((l.length : ℚ) - 1))

/-- Reading the within_<t>km column of a classified row: the flag stored for
threshold t (false when no such column exists; the source would raise a
KeyError there, a case never reached because statistics and classification
consume the same configured threshold list). -/
def flagLookup (flags : List (ℚ × Bool)) (t : ℚ) : Bool :=
  ((flags.filter fun tb => tb.1 = t).headD (t, false)).2

/-- The distance_statistics block of StatisticsAnalyzer.calculate_stats;
std_km is embedded by its square varKm. -/
structure DistStats where
  mean_km : Option ℚ
  median_km : Option ℚ
  varKm : Option ℚ
  min_km : Option ℚ
  max_km : Option ℚ
deriving DecidableEq, Repr

/-- One entry of accessibility_by_threshold: the count of rows whose
within_<t>km column is true and the percentage count / len * 100. The
percentage is `none` (NaN) on an empty accessibility set: numpy integer
division by zero yields NaN with a RuntimeWarning, not an exception. -/
structure ThreshStat where
  threshold : ℚ
  count : ℕ
  percentage : Option ℚ
deriving DecidableEq, Repr

/-- The statistics record built by StatisticsAnalyzer.calculate_stats. -/
structure Stats where
  total_facilities : ℕ
  distance_statistics : DistStats
  accessibility_by_threshold : List ThreshStat
deriving DecidableEq, Repr

/-- Embedding of StatisticsAnalyzer.calculate_stats. The source contains no
raise statement and no check of the cardinality of the accessibility set: on
an empty set every pandas aggregate yields NaN (`none` here) and the
percentage division by len = 0 yields NaN under numpy, so the function always
returns a value; Except.error is never produced. The Except wrapper exists to
state the spec's claim that an EmptyDatasetError failure occurs. -/
def calculate_stats (facilities : List Pt) (accessibility : List AccessRec)
    (thresholds : List ℚ) : Except GeoErr Stats :=
  let dists := accessibility.map AccessRec.dist_km
  Except.ok
    { total_facilities := facilities.length,
      distance_statistics :=
        { mean_km := seriesMean dists,
          median_km := seriesMedian dists,
          varKm := seriesVarKm dists,
          min_km := dists.min?,
          max_km := dists.max? },
      accessibility_by_threshold := thresholds.map fun t =>
        let count := accessibility.countP fun r => flagLookup r.flags t
        { threshold := t,
          count := count,
          percentage :=
            if accessibility.length = 0 then none
            else some (((count : ℚ) / (accessibility.length : ℚ)) * 100) } }

/-- GeoSeries.is_empty over an optional geometry: a missing (None) geometry is
treated as NOT empty by geopandas/shapely (is_empty of None is False; only
is_missing reports None). -/
def geoseries_is_empty : Option Geometry → Bool
  | none => false
  | some g => g.is_empty

/-- Embedding of VectorProcessor.remove_empty_geometry: keeps the rows whose
is_empty flag is false and logs the number removed (returned as the second
component). -/
def remove_empty_geometry (gdf : GeoDataFrame) : GeoDataFrame × ℕ :=
  let kept := gdf.features.filter fun f => !(geoseries_is_empty f.geometry)
  ({ crs := gdf.crs, features := kept }, gdf.features.length - kept.length)

/-- Modelled library point-in-geometry test used by clipping: containment in a
polygon is tested on the bounding box of its vertex list (exact for the
axis-aligned rectangular fixtures used in this development). -/
def geomContainsPt : Geometry → Pt → Bool
  | .point q, p => decide (q = p)
  | .polygon vs, p =>
    !vs.isEmpty &&
      (decide (qListMin (vs.map Pt.x) ≤ p.x) && decide (p.x ≤ qListMax (vs.map Pt.x)) &&
       decide (qListMin (vs.map Pt.y) ≤ p.y) && decide (p.y ≤ qListMax (vs.map Pt.y)))
  | .emptyGeom, _ => false

/-- Containment of a point in any geometry of the mask layer. -/
def maskContains (mask : GeoDataFrame) (p : Pt) : Bool :=
  mask.features.any fun f =>
    match f.geometry with
    | some g => geomContainsPt g p
    | none => false

/-- The bounding box (minx, miny, maxx, maxy) of a geometry's vertex sample;
none when the geometry has no vertex (empty geometry). -/
def Geometry.bbox (g : Geometry) : Option (ℚ × ℚ × ℚ × ℚ) :=
  match g.boundPts with
  | [] => none
  | ps => some (qListMin (ps.map Pt.x), qListMin (ps.map Pt.y),
                qListMax (ps.map Pt.x), qListMax (ps.map Pt.y))

/-- The overall bounding box of the mask layer — the bbox of the union of its
geometries; none for a layer without vertices. -/
def maskBbox (mask : GeoDataFrame) : Option (ℚ × ℚ × ℚ × ℚ) :=
  match allBoundPts mask with
  | [] => none
  | ps => some (qListMin (ps.map Pt.x), qListMin (ps.map Pt.y),
                qListMax (ps.map Pt.x), qListMax (ps.map Pt.y))

/-- Intersection of two bounding boxes; none when they are disjoint. -/
def bboxIntersect (a b : ℚ × ℚ × ℚ × ℚ) : Option (ℚ × ℚ × ℚ × ℚ) :=
  let r := (max a.1 b.1, max a.2.1 b.2.1,
            min a.2.2.1 b.2.2.1, min a.2.2.2 b.2.2.2)
  if r.1 ≤ r.2.2.1 ∧ r.2.1 ≤ r.2.2.2 then some r else none

/-- Modelled shapely intersection of one feature geometry with the union of
the mask's geometries, abstracted to bounding boxes: a point inside the mask
is kept unchanged and a point outside is dropped; a polygon is TRUNCATED to
the intersection of its bounding box with the mask's overall bounding box —
a polygon straddling the mask comes back as a modified (cut) geometry, and
one whose box is disjoint from the mask is dropped; empty geometries are
dropped. -/
def clipGeometry (mask : GeoDataFrame) : Geometry → Option Geometry
  | Geometry.point p =>
      if maskContains mask p then some (Geometry.point p) else none
  | Geometry.polygon vs =>
      match (Geometry.polygon vs).bbox, maskBbox mask with
      | some fb, some mb =>
          (bboxIntersect fb mb).map fun r =>
            Geometry.polygon [Pt.mk r.1 r.2.1, Pt.mk r.2.2.1 r.2.1,
              Pt.mk r.2.2.1 r.2.2.2, Pt.mk r.1 r.2.2.2]
      | _, _ => none
  | Geometry.emptyGeom => none

/-- Modelled geopandas.clip: on a CRS mismatch the library emits a UserWarning
and proceeds in raw coordinates; it never raises for that reason and never
reprojects. Every feature's geometry is intersected with the mask — features
fully outside are dropped, straddling geometries are truncated by the
modelled intersection — and the output keeps the input's CRS. -/
def gpd_clip (gdf mask : GeoDataFrame) : GeoDataFrame :=
  { crs := gdf.crs,
    features := gdf.features.filterMap fun f =>
      match f.geometry with
      | some g => (clipGeometry mask g).map fun g2 =>
          { geometry := some g2, attrs := f.attrs }
      | none => none }

/-- Embedding of VectorProcessor.clip_to_bounds: the body is a single call to
gpd.clip with no CRS check of its own, so no error value is ever produced;
the Except wrapper exists to state the spec's claim about CRSMismatchError. -/
def clip_to_bounds (gdf bounds : GeoDataFrame) : Except GeoErr GeoDataFrame :=
  Except.ok (gpd_clip gdf bounds)

/-- One raster cell for the zonal-statistics model: its center coordinate and
its value. -/
structure Cell where
  center : Pt
  value : ℚ
deriving DecidableEq, Repr

/-- Modelled rasterstats cell selection with all_touched false: the cells
whose center lies in the polygon and whose value is not the nodata
sentinel. -/
def validCells (cells : List Cell) (nodata : Option ℚ) (g : Geometry) :
    List Cell :=
  cells.filter fun c => geomContainsPt g c.center && !(nodata == some c.value)

/-- The aggregate record returned by rasterstats zonal_stats for one
geometry: keys sum, mean, count; sum and mean are None when no valid cell
intersects the geometry, count is then 0. -/
structure ZonalStat where
  sum : Option ℚ
  mean : Option ℚ
  count : ℕ
deriving DecidableEq, Repr

/-- Modelled rasterstats zonal_stats on one geometry over a cell list. -/
def zonal_stats_one (cells : List Cell) (nodata : Option ℚ) (g : Geometry) :
    ZonalStat :=
  let vals := (validCells cells nodata g).map Cell.value
  { sum := if vals.isEmpty then none else some vals.sum,
    mean := if vals.isEmpty then none else some (vals.sum / (vals.length : ℚ)),
    count := vals.length }

/-- The zonal_stats call made inside PopulationZonalExtractor.run for one row,
with the library abstracted to the cell model: a present geometry succeeds
with the modelled sum; a missing geometry makes the library raise. -/
def zsModel (cells : List Cell) (nodata : Option ℚ) :
    Option Geometry → Except String (Option ℚ)
  | some g => Except.ok (zonal_stats_one cells nodata g).sum
  | none => Except.error "geometry is missing"

/-- The CRS harmonisation step shared by both zonal-statistics entry points:
when the layer's CRS differs from the raster's CRS the layer is reprojected
to the raster's CRS (the external coordinate transformation is the map
reproj); attributes are untouched. -/
def matchRasterCrs (rasterCrs : Option ℤ) (reproj : Geometry → Geometry)
    (gdf : GeoDataFrame) : GeoDataFrame :=
  if gdf.crs = rasterCrs then gdf else
    { crs := rasterCrs,
      features := gdf.features.map fun f =>
        { f with geometry := f.geometry.map reproj } }

/-- The population value one row of PopulationZonalExtractor.run receives
from one zonal-statistics outcome: an Ok sum is kept, an Ok None defaults to
0, and a caught exception defaults to 0. -/
def runPopRow : Except String (Option ℚ) → ℚ
  | Except.ok (some s) => s
  | Except.ok none => 0
  | Except.error _ => 0

/-- The per-row loop of PopulationZonalExtractor.run, indexed from the given
counter: each row tries the zonal-statistics call zs; an Ok sum is kept, an
Ok None defaults to 0, and an exception is caught, recorded as a printed
warning with the row's index and message, and also defaults to 0. Returns the
population column and the warning list. -/
def runPopLoop (zs : Option Geometry → Except String (Option ℚ)) :
    ℕ → List Feature → List ℚ × List (ℕ × String)
  | _, [] => ([], [])
  | i, f :: fs =>
    let rest := runPopLoop zs (i + 1) fs
    match zs f.geometry with
    | Except.ok (some s) => (s :: rest.1, rest.2)
    | Except.ok none => ((0 : ℚ) :: rest.1, rest.2)
    | Except.error e => ((0 : ℚ) :: rest.1, (i, e) :: rest.2)

/-- Embedding of PopulationZonalExtractor.run: reprojects the layer to the
raster CRS when they differ (via the external reprojection map reproj), runs
the per-row loop, and appends the resulting population column; the warning
list of the loop is returned alongside. -/
def populationZonalExtractor_run (zs : Option Geometry → Except String (Option ℚ))
    (rasterCrs : Option ℤ) (reproj : Geometry → Geometry) (gdf : GeoDataFrame) :
    GeoDataFrame × List (ℕ × String) :=
  let gdf2 := matchRasterCrs rasterCrs reproj gdf
  let res := runPopLoop zs 0 gdf2.features
  ({ crs := gdf2.crs,
     features := (gdf2.features.zip res.1).map fun fp =>
       { fp.1 with attrs := fp.1.attrs ++ [("population", some fp.2)] } },
   res.2)

/-- Embedding of RasterProcessor.extract_population_by_zones: reprojects the
zones to the raster CRS when they differ, computes zonal statistics for every
zone in one library call (one record per zone, in order), and appends the
population_sum, population_mean and population_count columns; sum and mean
are attached as returned (None stays None, no defaulting). -/
def extract_population_by_zones (zstats : Option Geometry → ZonalStat)
    (rasterCrs : Option ℤ) (reproj : Geometry → Geometry)
    (zones : GeoDataFrame) : GeoDataFrame :=
  let zones2 := matchRasterCrs rasterCrs reproj zones
  let stats := zones2.features.map fun f => zstats f.geometry
  { crs := zones2.crs,
    features := (zones2.features.zip stats).map fun fs =>
      { fs.1 with attrs := fs.1.attrs ++
          [("population_sum", fs.2.sum),
           ("population_mean", fs.2.mean),
           ("population_count", some (fs.2.count : ℚ))] } }

/-! Concrete layers reused by the counterexamples and witnesses below. -/

/-- Fixture: a one-polygon boundary layer, the square (0,0)-(10,10), in the
projected CRS EPSG:32737. -/
def boundaryFixture : GeoDataFrame :=
  { crs := some 32737,
    features := [{ geometry := some (Geometry.polygon
        [Pt.mk 0 0, Pt.mk 10 0, Pt.mk 10 10, Pt.mk 0 10]), attrs := [] }] }

/-- Fixture: a one-point layer at (1,1) in the geographic CRS EPSG:4326. -/
def pointLayerFixture : GeoDataFrame :=
  { crs := some 4326,
    features := [{ geometry := some (Geometry.point (Pt.mk 1 1)), attrs := [] }] }

/-- Fixture: a feature with a null (missing) geometry and one attribute. -/
def nullGeomFeature : Feature :=
  { geometry := none, attrs := [("name", some 1)] }

/-- Fixture: a one-row layer whose single record has a null geometry. -/
def nullGeomLayer : GeoDataFrame :=
  { crs := some 4326, features := [nullGeomFeature] }

/-- Fixture: a zonal-statistics oracle that raises on missing geometries and
returns sum 7 otherwise. -/
def zsFixture : Option Geometry → Except String (Option ℚ)
  | none => Except.error "invalid geometry"
  | some _ => Except.ok (some 7)

/-- Fixture: a two-row layer whose first record has a null geometry. -/
def zonalFeats : List Feature :=
  [Feature.mk none [], Feature.mk (some (Geometry.point (Pt.mk 0 0))) []]

/-- Fixture: one raster cell centred at (5,5) with value 3. -/
def cellsFixture : List Cell := [Cell.mk (Pt.mk 5 5) 3]

/-- Fixture: the unit-square polygon (0,0)-(1,1), which overlaps no cell of
cellsFixture. -/
def smallPolyFixture : Geometry :=
  Geometry.polygon [Pt.mk 0 0, Pt.mk 1 0, Pt.mk 1 1, Pt.mk 0 1]

/-! Helper lemmas on sorting, list minima and maxima. -/

theorem mem_insertSorted {a b : ℚ} {l : List ℚ} :
    a ∈ insertSorted b l ↔ a = b ∨ a ∈ l := by
  induction l with
  | nil => simp [insertSorted]
  | cons c cs ih =>
    by_cases h : b ≤ c
    · simp [insertSorted, h]
    · simp only [insertSorted, if_neg h, List.mem_cons, ih]
      tauto

theorem mem_sortAsc {a : ℚ} {l : List ℚ} : a ∈ sortAsc l ↔ a ∈ l := by
  induction l with
  | nil => simp [sortAsc]
  | cons c cs ih =>
    have hstep : sortAsc (c :: cs) = insertSorted c (sortAsc cs) := rfl
    rw [hstep, mem_insertSorted, ih, List.mem_cons]

theorem qmin_eq_some {l : List ℚ} {a : ℚ} (ha : a ∈ l)
    (hle : ∀ b ∈ l, a ≤ b) : l.min? = some a := by
  haveI anti : Std.Antisymm (fun x1 x2 : ℚ => x1 ≤ x2) :=
    ⟨fun h1 h2 => le_antisymm h1 h2⟩
  exact (List.min?_eq_some_iff (fun x => le_refl x)
    (fun x y => min_choice x y) (fun _ _ _ => le_min_iff)).2 ⟨ha, hle⟩

theorem qmax_eq_some {l : List ℚ} {a : ℚ} (ha : a ∈ l)
    (hle : ∀ b ∈ l, b ≤ a) : l.max? = some a := by
  haveI anti : Std.Antisymm (fun x1 x2 : ℚ => x1 ≤ x2) :=
    ⟨fun h1 h2 => le_antisymm h1 h2⟩
  exact (List.max?_eq_some_iff (fun x => le_refl x)
    (fun x y => max_choice x y) (fun _ _ _ => max_le_iff)).2 ⟨ha, hle⟩

theorem qmin_spec {l : List ℚ} (h : l ≠ []) :
    qListMin l ∈ l ∧ ∀ b ∈ l, qListMin l ≤ b := by
  haveI anti : Std.Antisymm (fun x1 x2 : ℚ => x1 ≤ x2) :=
    ⟨fun h1 h2 => le_antisymm h1 h2⟩
  obtain ⟨v, vs, rfl⟩ := List.exists_cons_of_ne_nil h
  have hm : (v :: vs).min? = some (qListMin (v :: vs)) := rfl
  exact (List.min?_eq_some_iff (fun x => le_refl x)
    (fun x y => min_choice x y) (fun _ _ _ => le_min_iff)).1 hm

theorem qmax_spec {l : List ℚ} (h : l ≠ []) :
    qListMax l ∈ l ∧ ∀ b ∈ l, b ≤ qListMax l := by
  haveI anti : Std.Antisymm (fun x1 x2 : ℚ => x1 ≤ x2) :=
    ⟨fun h1 h2 => le_antisymm h1 h2⟩
  obtain ⟨v, vs, rfl⟩ := List.exists_cons_of_ne_nil h
  have hm : (v :: vs).max? = some (qListMax (v :: vs)) := rfl
  exact (List.max?_eq_some_iff (fun x => le_refl x)
    (fun x y => max_choice x y) (fun _ _ _ => max_le_iff)).1 hm

theorem qmin_le_qmax {l : List ℚ} (h : l ≠ []) : qListMin l ≤ qListMax l :=
  (qmax_spec h).2 (qListMin l) (qmin_spec h).1

/-! Helper lemmas on linspace and the sample grid. -/

theorem linspace_length (a b : ℚ) (n : ℕ) : (linspace a b n).length = n := by
  by_cases h0 : n = 0
  · subst h0; simp [linspace]
  · by_cases h1 : n = 1
    · subst h1; simp [linspace]
    · rw [linspace, if_neg h0, if_neg h1, List.length_map, List.length_range]

theorem self_mem_linspace (a b : ℚ) {n : ℕ} (h : 1 ≤ n) :
    a ∈ linspace a b n := by
  by_cases h1 : n = 1
  · subst h1; simp [linspace]
  · have h0 : n ≠ 0 := by omega
    rw [linspace, if_neg h0, if_neg h1]
    refine List.mem_map.2 ⟨0, List.mem_range.2 (by omega), by push_cast; ring⟩

theorem right_mem_linspace (a b : ℚ) {n : ℕ} (h : 2 ≤ n) :
    b ∈ linspace a b n := by
  have h0 : n ≠ 0 := by omega
  have h1 : n ≠ 1 := by omega
  rw [linspace, if_neg h0, if_neg h1]
  have hne : (n : ℚ) - 1 ≠ 0 := by
    have h2 : (2 : ℚ) ≤ (n : ℚ) := by exact_mod_cast h
    intro hz
    rw [sub_eq_zero] at hz
    rw [hz] at h2
    norm_num at h2
  refine List.mem_map.2 ⟨n - 1, List.mem_range.2 (by omega), ?_⟩
  have hc : ((n - 1 : ℕ) : ℚ) = (n : ℚ) - 1 := by
    have hcast := Nat.cast_sub (by omega : 1 ≤ n) (R := ℚ)
    simpa using hcast
  rw [hc, mul_div_assoc, div_self hne, mul_one]
  ring

theorem linspace_mem_bounds {a b v : ℚ} {n : ℕ} (hab : a ≤ b)
    (hv : v ∈ linspace a b n) : a ≤ v ∧ v ≤ b := by
  by_cases h0 : n = 0
  · rw [linspace, if_pos h0] at hv; simp at hv
  by_cases h1 : n = 1
  · rw [linspace, if_neg h0, if_pos h1] at hv
    simp at hv
    rcases hv with rfl
    exact ⟨le_refl _, hab⟩
  rw [linspace, if_neg h0, if_neg h1] at hv
  obtain ⟨i, hi, rfl⟩ := List.mem_map.1 hv
  have hi2 : i < n := List.mem_range.1 hi
  have hn2 : 2 ≤ n := by omega
  have hpos : (0 : ℚ) < (n : ℚ) - 1 := by
    have h2 : (2 : ℚ) ≤ (n : ℚ) := by exact_mod_cast hn2
    linarith
  have hile : (i : ℚ) ≤ (n : ℚ) - 1 := by
    have hsu : (i : ℚ) + 1 ≤ (n : ℚ) := by exact_mod_cast hi2
    linarith
  constructor
  · have hnn : 0 ≤ (b - a) * (i : ℚ) / ((n : ℚ) - 1) :=
      div_nonneg (mul_nonneg (by linarith) (by positivity)) (le_of_lt hpos)
    linarith
  · have hstep : (b - a) * (i : ℚ) / ((n : ℚ) - 1) ≤ b - a := by
      rw [div_le_iff₀ hpos]
      have hmul := mul_le_mul_of_nonneg_left hile (by linarith : (0 : ℚ) ≤ b - a)
      linarith
    linarith

theorem mem_gridPoints {minx miny maxx maxy : ℚ} {n : ℕ} {p : Pt} :
    p ∈ gridPoints minx miny maxx maxy n ↔
      p.x ∈ linspace minx maxx n ∧ p.y ∈ linspace miny maxy n := by
  constructor
  · intro h
    obtain ⟨gx, hgx, h2⟩ := List.mem_flatMap.1 h
    obtain ⟨gy, hgy, rfl⟩ := List.mem_map.1 h2
    exact ⟨hgx, hgy⟩
  · rintro ⟨hx, hy⟩
    refine List.mem_flatMap.2 ⟨p.x, hx, List.mem_map.2 ⟨p.y, hy, ?_⟩⟩
    cases p; rfl

theorem flatMap_const_length {α β : Type} (xs : List α) (f : α → List β)
    (k : ℕ) (hf : ∀ x, (f x).length = k) :
    (xs.flatMap f).length = xs.length * k := by
  induction xs with
  | nil => simp
  | cons c cs ih => simp [List.flatMap_cons, hf, ih, Nat.succ_mul, Nat.add_comm]

theorem gridPoints_length (minx miny maxx maxy : ℚ) (n : ℕ) :
    (gridPoints minx miny maxx maxy n).length = n * n := by
  unfold gridPoints
  rw [flatMap_const_length _ _ n
    (fun x => by rw [List.length_map, linspace_length]), linspace_length]

theorem allBoundPts_pointLayer (c : Option ℤ) (ps : List Pt) :
    allBoundPts { crs := c, features := ps.map fun p =>
      { geometry := some (Geometry.point p), attrs := [] } } = ps := by
  induction ps with
  | nil => simp [allBoundPts]
  | cons q qs ih =>
    simpa [allBoundPts, List.flatMap_cons, Geometry.boundPts] using ih

theorem allBoundPts_grid (boundaries : GeoDataFrame) (n : ℕ) :
    allBoundPts (create_population_grid boundaries n) =
      gridPoints (total_bounds boundaries).1 (total_bounds boundaries).2.1
        (total_bounds boundaries).2.2.1 (total_bounds boundaries).2.2.2 n := by
  unfold create_population_grid
  exact allBoundPts_pointLayer _ _

/-- Claim C2 counterexample: at grid_size = 1 on the square boundary
(0,0)-(10,10), create_population_grid produces the single point
(minx, miny) = (0, 0), so the maximum x coordinate over the produced points
is 0, not the bounding-box maxx = 10; the claimed extrema property fails for
N = 1 even though the point count 1 = 1 * 1 holds. -/
theorem create_population_grid_gridsize_one_counterexample :
    (create_population_grid boundaryFixture 1).features.length = 1 * 1 ∧
    ((allBoundPts (create_population_grid boundaryFixture 1)).map Pt.x).max?
        = some 0 ∧
    (total_bounds boundaryFixture).2.2.1 = 10 := by
  decide

/-- Claim C2 (amended): for every boundary layer with at least one geometry
vertex, create_population_grid with grid size N produces exactly N * N
points, and for every N at least 2 the minimum and maximum x (resp. y)
coordinates over the produced points equal the boundary's bounding-box minx
and maxx (resp. miny and maxy). At N = 1 numpy.linspace returns only the
start of each axis, so the single point is (minx, miny) and the extrema
property fails; the original claim stated it for every N at least 1. -/
theorem create_population_grid_count_and_extrema (boundaries : GeoDataFrame)
    (n : ℕ) (hpts : allBoundPts boundaries ≠ []) :
    (create_population_grid boundaries n).features.length = n * n ∧
    (2 ≤ n →
      ((allBoundPts (create_population_grid boundaries n)).map Pt.x).min?
          = some (total_bounds boundaries).1 ∧
      ((allBoundPts (create_population_grid boundaries n)).map Pt.x).max?
          = some (total_bounds boundaries).2.2.1 ∧
      ((allBoundPts (create_population_grid boundaries n)).map Pt.y).min?
          = some (total_bounds boundaries).2.1 ∧
      ((allBoundPts (create_population_grid boundaries n)).map Pt.y).max?
          = some (total_bounds boundaries).2.2.2) := by
  have hxne : (allBoundPts boundaries).map Pt.x ≠ [] := by
    intro hmap; exact hpts (List.map_eq_nil_iff.1 hmap)
  have hyne : (allBoundPts boundaries).map Pt.y ≠ [] := by
    intro hmap; exact hpts (List.map_eq_nil_iff.1 hmap)
  have hminx : (total_bounds boundaries).1
      = qListMin ((allBoundPts boundaries).map Pt.x) := rfl
  have hminy : (total_bounds boundaries).2.1
      = qListMin ((allBoundPts boundaries).map Pt.y) := rfl
  have hmaxx : (total_bounds boundaries).2.2.1
      = qListMax ((allBoundPts boundaries).map Pt.x) := rfl
  have hmaxy : (total_bounds boundaries).2.2.2
      = qListMax ((allBoundPts boundaries).map Pt.y) := rfl
  have hxab : (total_bounds boundaries).1 ≤ (total_bounds boundaries).2.2.1 := by
    rw [hminx, hmaxx]; exact qmin_le_qmax hxne
  have hyab : (total_bounds boundaries).2.1 ≤ (total_bounds boundaries).2.2.2 := by
    rw [hminy, hmaxy]; exact qmin_le_qmax hyne
  constructor
  · show ((gridPoints (total_bounds boundaries).1 (total_bounds boundaries).2.1
      (total_bounds boundaries).2.2.1 (total_bounds boundaries).2.2.2 n).map
        fun p => Feature.mk (some (Geometry.point p)) []).length = n * n
    rw [List.length_map, gridPoints_length]
  intro h2n
  have h1n : 1 ≤ n := by omega
  rw [allBoundPts_grid boundaries n]
  refine ⟨?_, ?_, ?_, ?_⟩
  · refine qmin_eq_some ?_ ?_
    · exact List.mem_map.2 ⟨Pt.mk (total_bounds boundaries).1
        (total_bounds boundaries).2.1,
        mem_gridPoints.2 ⟨self_mem_linspace _ _ h1n, self_mem_linspace _ _ h1n⟩,
        rfl⟩
    · intro v hv
      obtain ⟨p, hp, rfl⟩ := List.mem_map.1 hv
      exact (linspace_mem_bounds hxab (mem_gridPoints.1 hp).1).1
  · refine qmax_eq_some ?_ ?_
    · exact List.mem_map.2 ⟨Pt.mk (total_bounds boundaries).2.2.1
        (total_bounds boundaries).2.1,
        mem_gridPoints.2 ⟨right_mem_linspace _ _ h2n, self_mem_linspace _ _ h1n⟩,
        rfl⟩
    · intro v hv
      obtain ⟨p, hp, rfl⟩ := List.mem_map.1 hv
      exact (linspace_mem_bounds hxab (mem_gridPoints.1 hp).1).2
  · refine qmin_eq_some ?_ ?_
    · exact List.mem_map.2 ⟨Pt.mk (total_bounds boundaries).1
        (total_bounds boundaries).2.1,
        mem_gridPoints.2 ⟨self_mem_linspace _ _ h1n, self_mem_linspace _ _ h1n⟩,
        rfl⟩
    · intro v hv
      obtain ⟨p, hp, rfl⟩ := List.mem_map.1 hv
      exact (linspace_mem_bounds hyab (mem_gridPoints.1 hp).2).1
  · refine qmax_eq_some ?_ ?_
    · exact List.mem_map.2 ⟨Pt.mk (total_bounds boundaries).1
        (total_bounds boundaries).2.2.2,
        mem_gridPoints.2 ⟨self_mem_linspace _ _ h1n, right_mem_linspace _ _ h2n⟩,
        rfl⟩
    · intro v hv
      obtain ⟨p, hp, rfl⟩ := List.mem_map.1 hv
      exact (linspace_mem_bounds hyab (mem_gridPoints.1 hp).2).2

/-- Witness for create_population_grid_count_and_extrema: the square boundary
fixture at grid size 3. -/
theorem create_population_grid_count_and_extrema_witness :
    (create_population_grid boundaryFixture 3).features.length = 3 * 3 ∧
    (2 ≤ 3 →
      ((allBoundPts (create_population_grid boundaryFixture 3)).map Pt.x).min?
          = some (total_bounds boundaryFixture).1 ∧
      ((allBoundPts (create_population_grid boundaryFixture 3)).map Pt.x).max?
          = some (total_bounds boundaryFixture).2.2.1 ∧
      ((allBoundPts (create_population_grid boundaryFixture 3)).map Pt.y).min?
          = some (total_bounds boundaryFixture).2.1 ∧
      ((allBoundPts (create_population_grid boundaryFixture 3)).map Pt.y).max?
          = some (total_bounds boundaryFixture).2.2.2) :=
  create_population_grid_count_and_extrema boundaryFixture 3 (by decide)

/-! Helper lemmas on squared distances, argmin and list minima. -/

theorem distSq_nonneg (p q : Pt) : 0 ≤ distSq p q := by
  unfold distSq; positivity

theorem distSq_self (p : Pt) : distSq p p = 0 := by
  simp [distSq]

theorem seriesArgminAux_lt {vs : List ℚ} {i bi : ℕ} {bv : ℚ} {n : ℕ}
    (hbi : bi < n) (hi : i + vs.length ≤ n) :
    seriesArgminAux vs i bi bv < n := by
  induction vs generalizing i bi bv with
  | nil => simpa [seriesArgminAux] using hbi
  | cons v vs ih =>
    rw [List.length_cons] at hi
    rw [seriesArgminAux]
    split
    · exact ih (by omega) (by omega)
    · exact ih hbi (by omega)

theorem min?_eq_some_qListMin {l : List ℚ} (h : l ≠ []) :
    l.min? = some (qListMin l) := by
  obtain ⟨v, vs, rfl⟩ := List.exists_cons_of_ne_nil h
  rfl

/-- Claim C10: the per-point distance computation requires at least one
facility: with an empty facility set and a nonempty sample grid, the first
argmin call raises (embedded: calculate_distances returns none) instead of
returning a result set. -/
theorem calculate_distances_empty_facilities_fails (population : List Pt)
    (hp : population ≠ []) :
    calculate_distances [] population = none := by
  obtain ⟨g, gs, rfl⟩ := List.exists_cons_of_ne_nil hp
  rfl

/-- Witness for calculate_distances_empty_facilities_fails at a one-point
grid. -/
theorem calculate_distances_empty_facilities_fails_witness :
    calculate_distances [] [Pt.mk 0 0] = none :=
  calculate_distances_empty_facilities_fails [Pt.mk 0 0] (by decide)

/-- Claim C4: with at least one facility, calculate_distances succeeds, keeps
one record per grid point, each record's nearest-facility index is within
range, the distance (the square root of the stored squared distance) is
non-negative, and a grid point whose coordinates coincide with some facility
gets distance exactly 0. -/
theorem calculate_distances_nonneg_inrange (facilities population : List Pt)
    (hf : facilities ≠ []) :
    ∃ recs, calculate_distances facilities population = some recs ∧
      recs.length = population.length ∧
      ∀ r ∈ recs,
        r.nearest_facility_idx < facilities.length ∧
        0 ≤ r.distSq_m ∧
        0 ≤ Real.sqrt (r.distSq_m : ℝ) ∧
        (r.point ∈ facilities → Real.sqrt (r.distSq_m : ℝ) = 0) := by
  obtain ⟨f0, fs, rfl⟩ := List.exists_cons_of_ne_nil hf
  unfold calculate_distances
  induction population with
  | nil => exact ⟨[], rfl, rfl, by simp⟩
  | cons g gs ih =>
    obtain ⟨recs, hrecs, hlen, hprops⟩ := ih
    have hdne : ((f0 :: fs).map fun f => distSq f g) ≠ [] := by simp
    have hstep : calcDistRecs (f0 :: fs) (g :: gs)
        = (calcDistRecs (f0 :: fs) gs).bind fun rest =>
            some (DistRec.mk g
              (seriesArgminAux (fs.map fun f => distSq f g) 1 0 (distSq f0 g))
              (qListMin ((f0 :: fs).map fun f => distSq f g)) :: rest) := rfl
    refine ⟨DistRec.mk g
        (seriesArgminAux (fs.map fun f => distSq f g) 1 0 (distSq f0 g))
        (qListMin ((f0 :: fs).map fun f => distSq f g)) :: recs,
      ?_, ?_, ?_⟩
    · rw [hstep, hrecs]
      rfl
    · simp [hlen]
    · intro r hr
      rcases List.mem_cons.1 hr with hr0 | hrtail
      · subst hr0
        have hql := qmin_spec hdne
        have hm_nonneg : 0 ≤ qListMin ((f0 :: fs).map fun f => distSq f g) := by
          obtain ⟨f1, _, hfeq⟩ := List.mem_map.1 hql.1
          rw [← hfeq]
          exact distSq_nonneg f1 g
        refine ⟨?_, hm_nonneg, Real.sqrt_nonneg _, ?_⟩
        · rw [List.length_cons]
          exact seriesArgminAux_lt (by omega) (by rw [List.length_map]; omega)
        · intro hmem
          have hzero_mem : (0 : ℚ) ∈ (f0 :: fs).map fun f => distSq f g :=
            List.mem_map.2 ⟨g, hmem, distSq_self g⟩
          have hle0 := hql.2 0 hzero_mem
          have hm0 : qListMin ((f0 :: fs).map fun f => distSq f g) = 0 :=
            le_antisymm hle0 hm_nonneg
          rw [hm0]
          simp
      · exact hprops r hrtail

/-- Witness for calculate_distances_nonneg_inrange: two facilities, one grid
point coinciding with the first facility. -/
theorem calculate_distances_nonneg_inrange_witness :
    ∃ recs, calculate_distances [Pt.mk 0 0, Pt.mk 3 4] [Pt.mk 0 0]
        = some recs ∧
      recs.length = [Pt.mk 0 0].length ∧
      ∀ r ∈ recs,
        r.nearest_facility_idx < [Pt.mk 0 0, Pt.mk 3 4].length ∧
        0 ≤ r.distSq_m ∧
        0 ≤ Real.sqrt (r.distSq_m : ℝ) ∧
        (r.point ∈ [Pt.mk 0 0, Pt.mk 3 4] → Real.sqrt (r.distSq_m : ℝ) = 0) :=
  calculate_distances_nonneg_inrange [Pt.mk 0 0, Pt.mk 3 4] [Pt.mk 0 0]
    (by decide)

/-- Claim C5: thresholds are independent flags defined by
distance_km <= threshold; if a classified point's flag for threshold t1 is
true and t2 > t1 is also a configured threshold, then its flag for t2 is
true as well. -/
theorem classify_accessibility_thresholds_monotone
    (dist_km_col thresholds_km : List ℚ) (r : AccessRec)
    (hr : r ∈ classify_accessibility dist_km_col thresholds_km)
    (t1 t2 : ℚ) (ht2 : t2 ∈ thresholds_km) (hlt : t1 < t2)
    (h1 : (t1, true) ∈ r.flags) : (t2, true) ∈ r.flags := by
  obtain ⟨d, hd, rfl⟩ := List.mem_map.1 hr
  have hd1 : d ≤ t1 := by
    obtain ⟨t, ht, heq⟩ := List.mem_map.1 h1
    obtain ⟨rfl, hdec⟩ := Prod.mk.inj heq
    exact of_decide_eq_true hdec
  have hd2 : d ≤ t2 := le_of_lt (lt_of_le_of_lt hd1 hlt)
  exact List.mem_map.2 ⟨t2, mem_sortAsc.2 ht2, by rw [decide_eq_true hd2]⟩

/-- Witness for classify_accessibility_thresholds_monotone: one point at
distance 3 with thresholds [10, 5]. -/
theorem classify_accessibility_thresholds_monotone_witness :
    ((10 : ℚ), true) ∈ (AccessRec.mk 3 (withinFlags 3 [10, 5])).flags :=
  classify_accessibility_thresholds_monotone [3] [10, 5]
    (AccessRec.mk 3 (withinFlags 3 [10, 5]))
    (by decide) 5 10 (by decide) (by decide) (by decide)

/-- Claim C1 counterexample: on an empty accessibility set, calculate_stats
does not fail at all — no EmptyDatasetError class exists in the source and
the body contains no raise — it returns a statistics record whose distance
statistics and threshold percentage are NaN (none). -/
theorem calculate_stats_empty_no_failure :
    calculate_stats [] [] [5]
        = Except.ok (Stats.mk 0
            (DistStats.mk none none none none none)
            [ThreshStat.mk 5 0 none]) ∧
    calculate_stats [] [] [5] ≠ Except.error GeoErr.EmptyDatasetError :=
  ⟨rfl, fun h => Except.noConfusion h⟩

/-- Claim C1 (amended): on an empty accessibility set calculate_stats never
raises (in particular it raises no EmptyDatasetError, which the source does
not define); every pandas aggregate over the empty distance column is NaN
(none) and each threshold's percentage is NaN because the count divided by
len = 0 yields NaN under numpy rather than an exception. -/
theorem calculate_stats_empty_returns_nan (facilities : List Pt)
    (thresholds : List ℚ) :
    calculate_stats facilities [] thresholds
      = Except.ok (Stats.mk facilities.length
          (DistStats.mk none none none none none)
          (thresholds.map fun t => ThreshStat.mk t 0 none)) := rfl

/-- Claim C3 counterexample: clipping a point layer in EPSG:4326 against a
boundary layer in EPSG:32737 — two different CRSs — does not fail with
CRSMismatchError: clip_to_bounds performs no CRS comparison and returns the
clipped layer (here the whole input layer, whose point lies inside the
boundary's raw coordinates). -/
theorem clip_to_bounds_mismatch_counterexample :
    pointLayerFixture.crs ≠ boundaryFixture.crs ∧
    clip_to_bounds pointLayerFixture boundaryFixture
        = Except.ok pointLayerFixture ∧
    clip_to_bounds pointLayerFixture boundaryFixture
        ≠ Except.error GeoErr.CRSMismatchError :=
  ⟨by decide, rfl, fun h => Except.noConfusion h⟩

/-- Claim C3 (amended): clip_to_bounds performs no CRS check: even when the
two layers' CRSs differ it succeeds — the library emits a warning and clips
in raw coordinates, truncating straddling geometries — and it does not
auto-reproject either input: the output keeps the input layer's CRS. -/
theorem clip_to_bounds_no_crs_check (gdf bounds : GeoDataFrame)
    (_hne : gdf.crs ≠ bounds.crs) :
    ∃ r, clip_to_bounds gdf bounds = Except.ok r ∧ r.crs = gdf.crs :=
  ⟨gpd_clip gdf bounds, rfl, rfl⟩

/-- Witness for clip_to_bounds_no_crs_check at the two fixture layers with
different CRSs. -/
theorem clip_to_bounds_no_crs_check_witness :
    ∃ r, clip_to_bounds pointLayerFixture boundaryFixture = Except.ok r ∧
      r.crs = pointLayerFixture.crs :=
  clip_to_bounds_no_crs_check pointLayerFixture boundaryFixture (by decide)

/-- Claim C9 counterexample: remove_empty_geometry does not drop a record
with null geometry — GeoSeries.is_empty is False for missing geometries, so
the filter keeps the record — contradicting the claim that records with null
geometry are removed. -/
theorem remove_empty_geometry_null_retained :
    (remove_empty_geometry nullGeomLayer).1.features = [nullGeomFeature] ∧
    nullGeomFeature.geometry = none := ⟨rfl, rfl⟩

theorem length_filter_not_eq_countP {α : Type} (p : α → Bool) (l : List α) :
    l.length - (l.filter fun a => !(p a)).length = l.countP p := by
  have h := List.length_eq_length_filter_add (l := l) p
  have h2 := List.countP_eq_length_filter p l
  omega

/-- Claim C9 (amended): remove_empty_geometry keeps exactly the records whose
geometry is not empty in the GeoSeries.is_empty sense — records with null
geometry are retained, because is_empty is False for a missing geometry —
preserves the CRS, logs the number removed (the count of records with empty
geometry), and never fails (the embedding is total). -/
theorem remove_empty_geometry_spec (gdf : GeoDataFrame) :
    (remove_empty_geometry gdf).1.crs = gdf.crs ∧
    (∀ f ∈ (remove_empty_geometry gdf).1.features,
        f ∈ gdf.features ∧ geoseries_is_empty f.geometry = false) ∧
    (∀ f ∈ gdf.features, geoseries_is_empty f.geometry = false →
        f ∈ (remove_empty_geometry gdf).1.features) ∧
    (remove_empty_geometry gdf).2
      = gdf.features.countP fun f => geoseries_is_empty f.geometry := by
  refine ⟨rfl, ?_, ?_, ?_⟩
  · intro f hf
    have h2 := List.mem_filter.1 hf
    exact ⟨h2.1, by simpa using h2.2⟩
  · intro f hf hemp
    exact List.mem_filter.2 ⟨hf, by simp [hemp]⟩
  · exact length_filter_not_eq_countP _ _

/-- Witness for remove_empty_geometry_spec: the null-geometry record of the
fixture layer is retained and counted as not removed. -/
theorem remove_empty_geometry_spec_witness :
    (remove_empty_geometry nullGeomLayer).1.crs = nullGeomLayer.crs ∧
    nullGeomFeature ∈ (remove_empty_geometry nullGeomLayer).1.features ∧
    (remove_empty_geometry nullGeomLayer).2
      = nullGeomLayer.features.countP fun f => geoseries_is_empty f.geometry := by
  have h := remove_empty_geometry_spec nullGeomLayer
  refine ⟨h.1, ?_, h.2.2.2⟩
  exact h.2.2.1 nullGeomFeature (by simp [nullGeomLayer]) rfl

/-! Helper lemmas on the zonal extraction loop. -/

theorem runPopLoop_fst_cons (zs : Option Geometry → Except String (Option ℚ))
    (i : ℕ) (f : Feature) (fs : List Feature) :
    (runPopLoop zs i (f :: fs)).1
      = runPopRow (zs f.geometry) :: (runPopLoop zs (i + 1) fs).1 := by
  cases hz : zs f.geometry with
  | ok v => cases v <;> simp [runPopLoop, hz, runPopRow]
  | error e => simp [runPopLoop, hz, runPopRow]

theorem runPopLoop_snd_cons_ok {zs : Option Geometry → Except String (Option ℚ)}
    {f : Feature} {v : Option ℚ} (i : ℕ) (fs : List Feature)
    (hz : zs f.geometry = Except.ok v) :
    (runPopLoop zs i (f :: fs)).2 = (runPopLoop zs (i + 1) fs).2 := by
  cases v <;> simp [runPopLoop, hz]

theorem runPopLoop_snd_cons_error {zs : Option Geometry → Except String (Option ℚ)}
    {f : Feature} {e : String} (i : ℕ) (fs : List Feature)
    (hz : zs f.geometry = Except.error e) :
    (runPopLoop zs i (f :: fs)).2 = (i, e) :: (runPopLoop zs (i + 1) fs).2 := by
  simp [runPopLoop, hz]

theorem runPopLoop_length (zs : Option Geometry → Except String (Option ℚ))
    (k : ℕ) (feats : List Feature) :
    (runPopLoop zs k feats).1.length = feats.length := by
  induction feats generalizing k with
  | nil => rfl
  | cons f fs ih => rw [runPopLoop_fst_cons, List.length_cons, ih, List.length_cons]

theorem runPopLoop_getElem (zs : Option Geometry → Except String (Option ℚ))
    (k : ℕ) (feats : List Feature) (j : ℕ) :
    (runPopLoop zs k feats).1[j]?
      = (feats[j]?).map fun f => runPopRow (zs f.geometry) := by
  induction feats generalizing k j with
  | nil => simp [runPopLoop]
  | cons f fs ih =>
    rw [runPopLoop_fst_cons]
    cases j with
    | zero => simp
    | succ j => simp [ih]

theorem runPopLoop_warn_ge (zs : Option Geometry → Except String (Option ℚ))
    (k : ℕ) (feats : List Feature) :
    ∀ me ∈ (runPopLoop zs k feats).2, k ≤ me.1 := by
  induction feats generalizing k with
  | nil => simp [runPopLoop]
  | cons f fs ih =>
    intro me hme
    cases hz : zs f.geometry with
    | ok v =>
      rw [runPopLoop_snd_cons_ok k fs hz] at hme
      have := ih (k + 1) me hme
      omega
    | error e =>
      rw [runPopLoop_snd_cons_error k fs hz] at hme
      rcases List.mem_cons.1 hme with h0 | htail
      · subst h0; exact le_refl k
      · have := ih (k + 1) me htail
        omega

theorem runPopLoop_warn_of_error
    (zs : Option Geometry → Except String (Option ℚ)) (k : ℕ)
    (feats : List Feature) (i : ℕ) (e : String) (hi : i < feats.length)
    (he : zs (feats.get ⟨i, hi⟩).geometry = Except.error e) :
    (k + i, e) ∈ (runPopLoop zs k feats).2 := by
  induction feats generalizing k i with
  | nil => simp at hi
  | cons f fs ih =>
    cases i with
    | zero =>
      have he0 : zs f.geometry = Except.error e := he
      rw [runPopLoop_snd_cons_error k fs he0]
      simp
    | succ i =>
      have hi2 : i < fs.length := by
        rw [List.length_cons] at hi; omega
      have he2 : zs (fs.get ⟨i, hi2⟩).geometry = Except.error e := he
      cases hz : zs f.geometry with
      | ok v =>
        rw [runPopLoop_snd_cons_ok k fs hz]
        have := ih (k + 1) i hi2 he2
        have harith : k + 1 + i = k + (i + 1) := by omega
        rwa [harith] at this
      | error e0 =>
        rw [runPopLoop_snd_cons_error k fs hz]
        refine List.mem_cons.2 (Or.inr ?_)
        have := ih (k + 1) i hi2 he2
        have harith : k + 1 + i = k + (i + 1) := by omega
        rwa [harith] at this

theorem runPopLoop_no_warn_of_ok
    (zs : Option Geometry → Except String (Option ℚ)) (k : ℕ)
    (feats : List Feature) (i : ℕ) (v : Option ℚ) (hi : i < feats.length)
    (he : zs (feats.get ⟨i, hi⟩).geometry = Except.ok v) (e : String) :
    (k + i, e) ∉ (runPopLoop zs k feats).2 := by
  induction feats generalizing k i with
  | nil => simp at hi
  | cons f fs ih =>
    cases i with
    | zero =>
      have he0 : zs f.geometry = Except.ok v := he
      rw [runPopLoop_snd_cons_ok k fs he0]
      intro hmem
      have := runPopLoop_warn_ge zs (k + 1) fs (k + 0, e) hmem
      omega
    | succ i =>
      have hi2 : i < fs.length := by
        rw [List.length_cons] at hi; omega
      have he2 : zs (fs.get ⟨i, hi2⟩).geometry = Except.ok v := he
      have harith : k + 1 + i = k + (i + 1) := by omega
      cases hz : zs f.geometry with
      | ok v0 =>
        rw [runPopLoop_snd_cons_ok k fs hz]
        have := ih (k + 1) i hi2 he2
        rwa [harith] at this
      | error e0 =>
        rw [runPopLoop_snd_cons_error k fs hz]
        intro hmem
        rcases List.mem_cons.1 hmem with h0 | htail
        · have : k + (i + 1) = k := congrArg Prod.fst h0
          omega
        · have := ih (k + 1) i hi2 he2
          rw [harith] at this
          exact this htail

/-- Claim C6: a failure of the zonal-statistics call on one record is caught
rather than propagated: the loop records a warning carrying that record's
index and message, that record's population defaults to 0, and extraction
continues for all records — one population value per input record, each
record receiving the value computed from its own outcome. -/
theorem runPopLoop_failure_caught_logged
    (zs : Option Geometry → Except String (Option ℚ)) (feats : List Feature)
    (i : ℕ) (e : String) (hi : i < feats.length)
    (he : zs (feats.get ⟨i, hi⟩).geometry = Except.error e) :
    (runPopLoop zs 0 feats).1.length = feats.length ∧
    (runPopLoop zs 0 feats).1[i]? = some 0 ∧
    (i, e) ∈ (runPopLoop zs 0 feats).2 ∧
    ∀ j : ℕ, (runPopLoop zs 0 feats).1[j]?
        = (feats[j]?).map fun f => runPopRow (zs f.geometry) := by
  refine ⟨runPopLoop_length zs 0 feats, ?_, ?_,
    fun j => runPopLoop_getElem zs 0 feats j⟩
  · rw [runPopLoop_getElem zs 0 feats i, List.getElem?_eq_getElem hi]
    have hfe : feats[i] = feats.get ⟨i, hi⟩ := rfl
    rw [hfe]
    show some (runPopRow (zs (feats.get ⟨i, hi⟩).geometry)) = some 0
    rw [he]
    rfl
  · have hmem := runPopLoop_warn_of_error zs 0 feats i e hi he
    simpa using hmem

/-- Witness for runPopLoop_failure_caught_logged: the first record of the
fixture layer fails, defaults to 0 and is logged at index 0; the second
record keeps its computed value. -/
theorem runPopLoop_failure_caught_logged_witness :
    (runPopLoop zsFixture 0 zonalFeats).1.length = zonalFeats.length ∧
    (runPopLoop zsFixture 0 zonalFeats).1[0]? = some 0 ∧
    (0, "invalid geometry") ∈ (runPopLoop zsFixture 0 zonalFeats).2 ∧
    (runPopLoop zsFixture 0 zonalFeats).1[1]?
      = (zonalFeats[1]?).map fun f => runPopRow (zsFixture f.geometry) := by
  have h := runPopLoop_failure_caught_logged zsFixture zonalFeats 0
    "invalid geometry" (by decide) rfl
  exact ⟨h.1, h.2.1, h.2.2.1, h.2.2.2 1⟩

/-- Claim C7: a polygon with zero valid overlapping raster cells yields a
zonal sum of None, which the extraction loop converts to a population sum of
0 for that record; no exception reaches the caller and no warning is logged
at that record's index. -/
theorem zonal_zero_overlap_sum_zero (cells : List Cell) (nodata : Option ℚ)
    (feats : List Feature) (i : ℕ) (g : Geometry) (hi : i < feats.length)
    (hg : (feats.get ⟨i, hi⟩).geometry = some g)
    (hcells : validCells cells nodata g = []) :
    (zonal_stats_one cells nodata g).sum = none ∧
    (runPopLoop (zsModel cells nodata) 0 feats).1[i]? = some 0 ∧
    ∀ e, (i, e) ∉ (runPopLoop (zsModel cells nodata) 0 feats).2 := by
  have hsum : (zonal_stats_one cells nodata g).sum = none := by
    simp [zonal_stats_one, hcells]
  refine ⟨hsum, ?_, ?_⟩
  · rw [runPopLoop_getElem (zsModel cells nodata) 0 feats i,
      List.getElem?_eq_getElem hi]
    have hfe : feats[i] = feats.get ⟨i, hi⟩ := rfl
    rw [hfe]
    show some (runPopRow (zsModel cells nodata (feats.get ⟨i, hi⟩).geometry))
        = some 0
    rw [hg]
    show some (runPopRow (Except.ok (zonal_stats_one cells nodata g).sum))
        = some 0
    rw [hsum]
    rfl
  · intro e
    have hok : zsModel cells nodata (feats.get ⟨i, hi⟩).geometry
        = Except.ok (zonal_stats_one cells nodata g).sum := by
      rw [hg]; rfl
    have hnot := runPopLoop_no_warn_of_ok (zsModel cells nodata) 0 feats i
      (zonal_stats_one cells nodata g).sum hi hok e
    simpa using hnot

/-- Witness for zonal_zero_overlap_sum_zero: a one-row layer whose polygon
overlaps no raster cell gets population 0 and no warning. -/
theorem zonal_zero_overlap_sum_zero_witness :
    (zonal_stats_one cellsFixture none smallPolyFixture).sum = none ∧
    (runPopLoop (zsModel cellsFixture none) 0
        [Feature.mk (some smallPolyFixture) []]).1[0]? = some 0 ∧
    ((0, "x") ∉ (runPopLoop (zsModel cellsFixture none) 0
        [Feature.mk (some smallPolyFixture) []]).2) := by
  have h := zonal_zero_overlap_sum_zero cellsFixture none
    [Feature.mk (some smallPolyFixture) []] 0 smallPolyFixture
    (by decide) rfl (by decide)
  exact ⟨h.1, h.2.1, h.2.2 "x"⟩

/-! Helper lemmas for the zonal frame-effect theorem. -/

theorem zipWith_self {α γ : Type} (f : α → α → γ) (l : List α) :
    List.zipWith f l l = l.map fun a => f a a := by
  induction l with
  | nil => rfl
  | cons a as ih => simp [ih]

theorem extract_population_by_zones_features
    (zstats : Option Geometry → ZonalStat) (rasterCrs : Option ℤ)
    (reproj : Geometry → Geometry) (zones : GeoDataFrame) :
    (extract_population_by_zones zstats rasterCrs reproj zones).features
      = (matchRasterCrs rasterCrs reproj zones).features.map fun f =>
          Feature.mk f.geometry (f.attrs ++
            [("population_sum", (zstats f.geometry).sum),
             ("population_mean", (zstats f.geometry).mean),
             ("population_count", some ((zstats f.geometry).count : ℚ))]) := by
  show (((matchRasterCrs rasterCrs reproj zones).features).zip
      (((matchRasterCrs rasterCrs reproj zones).features).map fun f =>
        zstats f.geometry)).map _ = _
  rw [show ∀ (l : List Feature) (l2 : List ZonalStat), l.zip l2
      = List.zipWith Prod.mk l l2 from fun _ _ => rfl,
    List.zipWith_map_right, zipWith_self, List.map_map]
  rfl

/-- Claim C8: extract_population_by_zones returns one output row per input
polygon, in the input's order; each output row's attributes are the
corresponding input row's attributes with the population_sum,
population_mean and population_count columns appended (values taken from the
zonal statistics of the row's geometry after the CRS-matching step, which
itself leaves every row's attributes unchanged). -/
theorem extract_population_by_zones_frame
    (zstats : Option Geometry → ZonalStat) (rasterCrs : Option ℤ)
    (reproj : Geometry → Geometry) (zones : GeoDataFrame) :
    (extract_population_by_zones zstats rasterCrs reproj zones).features.length
        = zones.features.length ∧
    (∀ j : ℕ,
      ((extract_population_by_zones zstats rasterCrs reproj zones).features[j]?).map
          Feature.attrs
        = ((matchRasterCrs rasterCrs reproj zones).features[j]?).map fun f =>
            f.attrs ++
              [("population_sum", (zstats f.geometry).sum),
               ("population_mean", (zstats f.geometry).mean),
               ("population_count", some ((zstats f.geometry).count : ℚ))]) ∧
    (∀ j : ℕ,
      ((matchRasterCrs rasterCrs reproj zones).features[j]?).map Feature.attrs
        = (zones.features[j]?).map Feature.attrs) := by
  have hfeat := extract_population_by_zones_features zstats rasterCrs reproj zones
  have hmlen : (matchRasterCrs rasterCrs reproj zones).features.length
      = zones.features.length := by
    unfold matchRasterCrs
    split
    · rfl
    · rw [List.length_map]
  refine ⟨?_, ?_, ?_⟩
  · rw [hfeat, List.length_map, hmlen]
  · intro j
    rw [hfeat, List.getElem?_map, Option.map_map]
    rfl
  · intro j
    unfold matchRasterCrs
    split
    · rfl
    · rw [List.getElem?_map, Option.map_map]
      rfl

end HealthGap
